import Mathlib

/-!
Verification development for the analytics question-answering repository:
the record filtering engine (data_filter.py) and the usage-accounting
engine (usage_tracker.py), embedded shallowly in Lean 4.

Conventions of the embedding:
- Python dictionaries with known keys become structures; a key that may be
  absent becomes an Option field, and Python dict.get with a default is
  modelled by Option.getD.
- Python list comprehensions become List.filter, any(...) becomes List.any,
  db[:50] becomes List.take 50.
- The Python substring test (needle in haystack) becomes infix testing on
  the underlying character lists.
- Real-valued currency arithmetic is modelled exactly over the rationals;
  round(x, 6) becomes rounding of x * 10^6 to the nearest integer.
- A Python method mutating object state becomes a function from the old
  state to the new state; a method that only reads state becomes a pure
  function of the state, so absence of side effects is by construction.
-/

/-- Contiguous-sublist test on character lists: pat occurs as a prefix of
some suffix of the second argument. -/
def containsSub (pat : List Char) : List Char → Bool
  | [] => pat.isEmpty
  | c :: rest => pat.isPrefixOf (c :: rest) || containsSub pat rest

/-- Python substring containment: pat appears contiguously inside s,
modelling the Python expression pat in s. -/
def strContains (s pat : String) : Bool :=
  containsSub pat.data s.data

/-- Python str.lower, modelled characterwise over the underlying character
list (ASCII-faithful, and kernel-reducible on concrete strings). -/
def strToLower (s : String) : String :=
  String.mk (s.data.map Char.toLower)

/-- One entry of the CountriesSplitted geography array: a dict whose value
key may be absent (the code reads it with c.get with default empty string). -/
structure CountryEntry where
  value : Option String
deriving Repr, DecidableEq

/-- An activity record, restricted to the fields the filter inspects.
Each field the code reads through dict.get may be absent; the array-valued
fields default to the empty list exactly as dict.get with default does. -/
structure Activity where
  ActivityStatus : Option String
  CountriesSplitted : List CountryEntry
  BeneficiariesExtracted : List String
deriving Repr, DecidableEq

/-- The fixed candidate country list of data_filter.py, in source order. -/
def countries : List String :=
  ["ghana", "nigeria", "kenya", "south africa"]

/-- Shallow embedding of filter_activities (src/data_filter.py):
a first-match-wins cascade of status, country, beneficiary rules with a
take-50 fallback. -/
def filter_activities (question : String) (db : List Activity) : List Activity :=
  let q := strToLower question
  if strContains q "executed" then
    db.filter (fun a => a.ActivityStatus == some "Executed")
  else if strContains q "planned" then
    db.filter (fun a => a.ActivityStatus == some "Planned")
  else if strContains q "in progress" then
    db.filter (fun a => a.ActivityStatus == some "In progress")
  else
    match List.find? (fun country => strContains q country) countries with
    | some country =>
        db.filter (fun a =>
          a.CountriesSplitted.any (fun c => strToLower (c.value.getD "") == country))
    | none =>
        if strContains q "women" then
          db.filter (fun a => a.BeneficiariesExtracted.contains "Women and Girls")
        else
          db.take 50

/-! ## Usage ledger (src/usage_tracker.py) -/

/-- Per-model pricing in USD per one million tokens. -/
structure Pricing where
  input : ℚ
  output : ℚ
deriving Repr, DecidableEq

/-- The static MODEL_PRICING table of usage_tracker.py, as an association
list in source order (the Python dict has unique keys, so find? agrees
with dict lookup). -/
def MODEL_PRICING : List (String × Pricing) :=
  [ ("gpt-5.2", ⟨3.50, 28.00⟩)
  , ("gpt-5.2-pro", ⟨21.00, 168.00⟩)
  , ("gpt-5.1", ⟨1.25, 10.00⟩)
  , ("gpt-5-mini", ⟨0.25, 2.00⟩)
  , ("gpt-5-nano", ⟨0.05, 0.40⟩)
  , ("gpt-4.1", ⟨3.00, 12.00⟩)
  , ("gpt-4.1-mini", ⟨0.80, 3.20⟩)
  , ("gpt-4.1-nano", ⟨0.20, 0.80⟩)
  , ("gpt-4o", ⟨3.75, 15.00⟩)
  , ("gpt-4o-mini", ⟨0.30, 1.20⟩)
  , ("gpt-realtime", ⟨32.00, 64.00⟩)
  , ("gpt-realtime-mini", ⟨10.00, 20.00⟩)
  , ("gpt-4o-realtime-preview", ⟨40.00, 80.00⟩)
  , ("gpt-3.5-turbo", ⟨3.00, 6.00⟩)
  , ("davinci-002", ⟨12.00, 12.00⟩)
  , ("babbage-002", ⟨1.60, 1.60⟩)
  , ("claude-sonnet-4-5", ⟨3.00, 15.00⟩)
  , ("claude-sonnet-4-5-20250929", ⟨3.00, 15.00⟩)
  , ("claude-haiku-4-5", ⟨1.00, 5.00⟩)
  , ("claude-haiku-4-5-20251001", ⟨1.00, 5.00⟩)
  , ("claude-opus-4-5", ⟨5.00, 25.00⟩)
  , ("claude-opus-4-5-20251101", ⟨5.00, 25.00⟩)
  , ("claude-sonnet-4", ⟨3.00, 15.00⟩)
  , ("claude-opus-4", ⟨15.00, 75.00⟩)
  , ("claude-opus-4.1", ⟨15.00, 75.00⟩)
  , ("claude-3-5-sonnet-20241022", ⟨3.00, 15.00⟩)
  , ("claude-3-5-sonnet-20240620", ⟨3.00, 15.00⟩)
  , ("claude-3-5-haiku-20241022", ⟨0.80, 4.00⟩)
  , ("claude-3-opus-20240229", ⟨15.00, 75.00⟩)
  , ("claude-3-sonnet-20240229", ⟨3.00, 15.00⟩)
  , ("claude-3-haiku-20240307", ⟨0.25, 1.25⟩)
  , ("claude-2.1", ⟨11.02, 32.68⟩)
  , ("claude-instant-1.2", ⟨1.63, 5.51⟩) ]

/-- Dictionary lookup MODEL_PRICING.get(model). -/
def lookupPricing (model : String) : Option Pricing :=
  (MODEL_PRICING.find? (fun p => p.1 == model)).map Prod.snd

/-- One recorded API call, the dict appended by UsageTracker.record. -/
structure Call where
  stage : String
  model : String
  provider : String
  input_tokens : ℕ
  output_tokens : ℕ
  total_tokens : ℕ
deriving Repr, DecidableEq

/-- A provider usage payload. The Python code duck-types the usage object,
reading OpenAI field names or Claude field names depending on the provider
argument; the model carries all five fields. -/
structure Usage where
  prompt_tokens : ℕ
  completion_tokens : ℕ
  total_tokens : ℕ
  input_tokens : ℕ
  output_tokens : ℕ
deriving Repr, DecidableEq

/-- The mutable state of a UsageTracker instance. The start timestamp is an
opaque string fixed at construction (datetime.utcnow().isoformat() in the
source). -/
structure UsageTracker where
  calls : List Call
  started_at : String
deriving Repr, DecidableEq

/-- UsageTracker.__init__: empty call list, given start timestamp. -/
def UsageTracker.init (startedAt : String) : UsageTracker :=
  { calls := [], started_at := startedAt }

/-- Shallow embedding of UsageTracker.record: the response usage payload is
Option-valued (getattr(response, "usage", None) and the falsy test); the
method returns the new tracker state. -/
def UsageTracker.record (t : UsageTracker) (responseUsage : Option Usage)
    (model stage provider : String) : UsageTracker :=
  match responseUsage with
  | none => t
  | some usage =>
    if provider == "openai" then
      { t with calls := t.calls ++
        [{ stage := stage, model := model, provider := provider,
           input_tokens := usage.prompt_tokens,
           output_tokens := usage.completion_tokens,
           total_tokens := usage.total_tokens }] }
    else if provider == "claude" then
      { t with calls := t.calls ++
        [{ stage := stage, model := model, provider := provider,
           input_tokens := usage.input_tokens,
           output_tokens := usage.output_tokens,
           total_tokens := usage.input_tokens + usage.output_tokens }] }
    else t

/-- The Python call site record(response, model, stage) with the provider
argument left to its declared default value "openai". -/
def UsageTracker.recordDefaultProvider (t : UsageTracker)
    (responseUsage : Option Usage) (model stage : String) : UsageTracker :=
  t.record responseUsage model stage "openai"

/-- Python round(x, 6) over exact rationals: round x * 10^6 to the nearest
integer and scale back. -/
def round6 (x : ℚ) : ℚ :=
  ((round (x * 1000000) : ℤ) : ℚ) / 1000000

/-- Shallow embedding of UsageTracker.calculate_cost: price the call by the
pricing table (zero when the model is absent), per one million tokens,
rounded to six decimal places. -/
def calculate_cost (call : Call) : ℚ :=
  match lookupPricing call.model with
  | none => 0
  | some pricing =>
      round6 ((call.input_tokens : ℚ) / 1000000 * pricing.input
            + (call.output_tokens : ℚ) / 1000000 * pricing.output)

/-- The aggregate dict returned by UsageTracker.summary; each call is paired
with its cost_usd annotation. -/
structure Summary where
  started_at : String
  total_calls : ℕ
  total_input_tokens : ℕ
  total_output_tokens : ℕ
  total_tokens : ℕ
  total_cost_usd : ℚ
  calls : List (Call × ℚ)
deriving Repr, DecidableEq

/-- Shallow embedding of UsageTracker.summary: pure aggregation over the
stored call list (the Python method only reads self.calls and
self.started_at, so it is a function of the state). -/
def summary (t : UsageTracker) : Summary :=
  { started_at := t.started_at
  , total_calls := t.calls.length
  , total_input_tokens := (t.calls.map (fun c => c.input_tokens)).sum
  , total_output_tokens := (t.calls.map (fun c => c.output_tokens)).sum
  , total_tokens := (t.calls.map (fun c => c.total_tokens)).sum
  , total_cost_usd := round6 ((t.calls.map (fun c => calculate_cost c)).sum)
  , calls := t.calls.map (fun c => (c, calculate_cost c)) }

/-- One record() invocation request: the arguments of a single call to
UsageTracker.record. -/
structure RecordCall where
  responseUsage : Option Usage
  model : String
  stage : String
  provider : String
deriving Repr, DecidableEq

/-- Apply a sequence of record() invocations to a tracker, in order. -/
def applyRecords (t : UsageTracker) (rs : List RecordCall) : UsageTracker :=
  rs.foldl (fun acc r => acc.record r.responseUsage r.model r.stage r.provider) t

/-- A record() invocation that actually appends a call: usage payload
present and provider recognized. -/
def successfulRecord (r : RecordCall) : Bool :=
  r.responseUsage.isSome && (r.provider == "openai" || r.provider == "claude")

/-! ## Sample data for concrete instantiations -/

/-- An executed activity located in Ghana benefiting Women and Girls. -/
def execActivity : Activity :=
  { ActivityStatus := some "Executed"
  , CountriesSplitted := [{ value := some "Ghana" }]
  , BeneficiariesExtracted := ["Women and Girls"] }

/-- A planned activity located in Nigeria. -/
def plannedActivity : Activity :=
  { ActivityStatus := some "Planned"
  , CountriesSplitted := [{ value := some "Nigeria" }]
  , BeneficiariesExtracted := [] }

/-- A malformed activity record missing every expected field. -/
def bareActivity : Activity :=
  { ActivityStatus := none, CountriesSplitted := [], BeneficiariesExtracted := [] }

/-- A small concrete database. -/
def sampleDb : List Activity := [execActivity, plannedActivity, bareActivity]

/-- A concrete usage payload. -/
def genericUsage : Usage :=
  { prompt_tokens := 10, completion_tokens := 20, total_tokens := 30
  , input_tokens := 10, output_tokens := 20 }

/-! ## Claims about the record filter -/

/-- C1: whenever the lower-cased question contains the substring "executed",
filter_activities returns exactly the records whose ActivityStatus equals
"Executed", in original relative order, regardless of any other keywords in
the question (the status rule is evaluated first and returns immediately). -/
theorem C1_executed_status_rule (question : String) (db : List Activity)
    (h : strContains (strToLower question) "executed" = true) :
    filter_activities question db =
      db.filter (fun a => a.ActivityStatus == some "Executed") := by
  unfold filter_activities
  simp [h]

/-- Witness for C1 at a question that also contains a country name. -/
theorem C1_executed_status_rule_witness :
    filter_activities "Executed projects in Ghana" sampleDb =
      sampleDb.filter (fun a => a.ActivityStatus == some "Executed") :=
  C1_executed_status_rule "Executed projects in Ghana" sampleDb (by decide)

/-- C4: when the question matches no status keyword and country is the first
candidate of the fixed list ghana, nigeria, kenya, south africa contained in
the lower-cased question, filter_activities returns exactly the records with
at least one geography entry whose lower-cased value equals that country
(exact whole-string comparison against the stored value). -/
theorem C4_country_rule (question : String) (db : List Activity) (country : String)
    (h1 : strContains (strToLower question) "executed" = false)
    (h2 : strContains (strToLower question) "planned" = false)
    (h3 : strContains (strToLower question) "in progress" = false)
    (h4 : List.find? (fun c => strContains (strToLower question) c) countries
            = some country) :
    filter_activities question db =
      db.filter (fun a =>
        a.CountriesSplitted.any (fun c => strToLower (c.value.getD "") == country)) := by
  unfold filter_activities
  simp [h1, h2, h3, h4]

/-- Witness for C4 with the question mentioning ghana inside a larger word
context and a stored value spelled Ghana. -/
theorem C4_country_rule_witness :
    filter_activities "activities in ghanaian regions" sampleDb =
      sampleDb.filter (fun a =>
        a.CountriesSplitted.any (fun c => strToLower (c.value.getD "") == "ghana")) :=
  C4_country_rule "activities in ghanaian regions" sampleDb "ghana"
    (by decide) (by decide) (by decide) (by decide)

/-- C5: a question matching no status, country, or beneficiary rule makes
filter_activities return the first min(50, length) records unchanged, in
original order (List.take 50). -/
theorem C5_fallback_rule (question : String) (db : List Activity)
    (h1 : strContains (strToLower question) "executed" = false)
    (h2 : strContains (strToLower question) "planned" = false)
    (h3 : strContains (strToLower question) "in progress" = false)
    (h4 : List.find? (fun c => strContains (strToLower question) c) countries = none)
    (h5 : strContains (strToLower question) "women" = false) :
    filter_activities question db = db.take 50 := by
  unfold filter_activities
  simp [h1, h2, h3, h4, h5]

/-- Witness for C5 at the empty question. -/
theorem C5_fallback_rule_witness :
    filter_activities "" sampleDb = sampleDb.take 50 :=
  C5_fallback_rule "" sampleDb (by decide) (by decide) (by decide) (by decide) (by decide)

/-- C9: for every question and database, the filter result is a sub-sequence
of the input preserving relative order (and the input list itself is never
altered, the function being a pure selection), and the function is
deterministic. -/
theorem C9_subsequence_invariant (question : String) (db : List Activity) :
    List.Sublist (filter_activities question db) db ∧
    filter_activities question db = filter_activities question db := by
  refine ⟨?_, rfl⟩
  show List.Sublist (filter_activities question db) db
  unfold filter_activities
  simp only
  repeat' split
  all_goals first
    | exact List.filter_sublist _
    | exact List.take_sublist _ _

/-- C8: filter_activities is total (it is a Lean function, so it never
raises), returns [] on the empty database for every question, and treats a
record missing an expected field as non-matching under the status, country
and beneficiary rules: an absent ActivityStatus never matches the status
rule, geography entries that are absent or lack a value never match the
country rule, and an absent beneficiary list never matches the beneficiary
rule. -/
theorem C8_safety (question : String) (db : List Activity) (a : Activity) :
    filter_activities question [] = [] ∧
    (strContains (strToLower question) "executed" = true →
      a.ActivityStatus = none → a ∉ filter_activities question db) ∧
    (∀ country,
      strContains (strToLower question) "executed" = false →
      strContains (strToLower question) "planned" = false →
      strContains (strToLower question) "in progress" = false →
      List.find? (fun c => strContains (strToLower question) c) countries
        = some country →
      (∀ e ∈ a.CountriesSplitted, e.value = none) →
      a ∉ filter_activities question db) ∧
    (strContains (strToLower question) "executed" = false →
      strContains (strToLower question) "planned" = false →
      strContains (strToLower question) "in progress" = false →
      List.find? (fun c => strContains (strToLower question) c) countries = none →
      strContains (strToLower question) "women" = true →
      a.BeneficiariesExtracted = [] →
      a ∉ filter_activities question db) := by
  refine ⟨?_, ?_, ?_, ?_⟩
  · unfold filter_activities
    simp only
    repeat' split
    all_goals simp
  · intro hq hs
    unfold filter_activities
    simp [hq, List.mem_filter, hs]
  · intro country h1 h2 h3 h4 hvals
    have hmem : country ∈ countries := List.mem_of_find?_eq_some h4
    unfold filter_activities
    simp only [h1, h2, h3, h4]
    simp only [Bool.false_eq_true, if_false]
    intro hin
    rw [List.mem_filter] at hin
    rcases hin with ⟨-, hpred⟩
    rw [List.any_eq_true] at hpred
    rcases hpred with ⟨e, he, heq⟩
    rw [hvals e he] at heq
    have hne : country ≠ "" := by
      simp only [countries, List.mem_cons, List.not_mem_nil, or_false] at hmem
      rcases hmem with rfl | rfl | rfl | rfl <;> decide
    have h0 : strToLower (Option.getD none "") = "" := rfl
    rw [h0, beq_iff_eq] at heq
    exact hne heq.symm
  · intro h1 h2 h3 h4 h5 hben
    unfold filter_activities
    simp [h1, h2, h3, h4, h5, List.mem_filter, hben]

/-- Witness for C8: concrete instantiation exercising the empty database
and a status-rule question against a record with no ActivityStatus. -/
theorem C8_safety_witness :
    filter_activities "executed" [] = [] ∧
    bareActivity ∉ filter_activities "executed" sampleDb := by
  have h := C8_safety "executed" sampleDb bareActivity
  exact ⟨h.1, h.2.1 (by decide) rfl⟩

/-! ## Claims about the usage ledger -/

/-- C2: calculate_cost returns 0 when the model is not a key of the pricing
table, and otherwise the per-million-token formula rounded to six decimal
places; in particular a gpt-4.1-mini call with 1000 input and 500 output
tokens costs 0.0024 USD. -/
theorem C2_calculate_cost_spec (call : Call) :
    (lookupPricing call.model = none → calculate_cost call = 0) ∧
    (∀ pricing, lookupPricing call.model = some pricing →
      calculate_cost call =
        round6 ((call.input_tokens : ℚ) / 1000000 * pricing.input
              + (call.output_tokens : ℚ) / 1000000 * pricing.output)) ∧
    calculate_cost
      { stage := "query", model := "gpt-4.1-mini", provider := "openai"
      , input_tokens := 1000, output_tokens := 500, total_tokens := 1500 }
      = 24 / 10000 := by
  refine ⟨?_, ?_, ?_⟩
  · intro h
    unfold calculate_cost
    rw [h]
  · intro pricing h
    unfold calculate_cost
    rw [h]
  · have h : lookupPricing "gpt-4.1-mini" = some ⟨0.80, 3.20⟩ := rfl
    unfold calculate_cost
    rw [h]
    norm_num [round6]

/-- Witness for C2 applied to a call whose model is absent from the table. -/
theorem C2_calculate_cost_spec_witness :
    calculate_cost
      { stage := "query", model := "mystery-model", provider := "openai"
      , input_tokens := 5, output_tokens := 7, total_tokens := 12 } = 0 :=
  (C2_calculate_cost_spec
    { stage := "query", model := "mystery-model", provider := "openai"
    , input_tokens := 5, output_tokens := 7, total_tokens := 12 }).1 (by decide)

/-- C3: with a present usage payload, record appends one call: under
provider "openai" it copies prompt_tokens, completion_tokens and the
verbatim total_tokens; under provider "claude" it copies input_tokens and
output_tokens and computes the total as their sum; the provider identifier
is stored in the appended call. -/
theorem C3_record_normalization (t : UsageTracker) (u : Usage)
    (model stage : String) :
    t.record (some u) model stage "openai" =
      { t with calls := t.calls ++
        [{ stage := stage, model := model, provider := "openai"
         , input_tokens := u.prompt_tokens
         , output_tokens := u.completion_tokens
         , total_tokens := u.total_tokens }] } ∧
    t.record (some u) model stage "claude" =
      { t with calls := t.calls ++
        [{ stage := stage, model := model, provider := "claude"
         , input_tokens := u.input_tokens
         , output_tokens := u.output_tokens
         , total_tokens := u.input_tokens + u.output_tokens }] } :=
  ⟨rfl, rfl⟩

/-- C6: record leaves the tracker unchanged when the usage payload is
absent, and likewise when the provider is neither "openai" nor "claude"
(and, being a total function, it never raises). -/
theorem C6_record_noop (t : UsageTracker) (u : Option Usage)
    (model stage provider : String) :
    (u = none → t.record u model stage provider = t) ∧
    (provider ≠ "openai" → provider ≠ "claude" →
      t.record u model stage provider = t) := by
  constructor
  · rintro rfl
    rfl
  · intro h1 h2
    cases u with
    | none => rfl
    | some usage =>
      unfold UsageTracker.record
      simp [beq_iff_eq, h1, h2]

/-- Witness for C6: a missing payload and an unsupported provider, both
leaving a concrete tracker unchanged. -/
theorem C6_record_noop_witness :
    (UsageTracker.init "t0").record none "gpt-4.1-mini" "query" "openai"
      = UsageTracker.init "t0" ∧
    (UsageTracker.init "t0").record (some genericUsage) "gpt-4.1-mini" "query" "gemini"
      = UsageTracker.init "t0" :=
  ⟨(C6_record_noop (UsageTracker.init "t0") none "gpt-4.1-mini" "query" "openai").1
      rfl,
   (C6_record_noop (UsageTracker.init "t0") (some genericUsage) "gpt-4.1-mini" "query"
      "gemini").2 (by decide) (by decide)⟩

/-- record changes the call-list length by one exactly when the invocation
is successful (payload present and provider recognized). -/
lemma record_calls_length (t : UsageTracker) (u : Option Usage)
    (model stage provider : String) :
    (t.record u model stage provider).calls.length =
      t.calls.length +
        (if successfulRecord ⟨u, model, stage, provider⟩ then 1 else 0) := by
  cases u with
  | none => simp [UsageTracker.record, successfulRecord]
  | some usage =>
    by_cases h1 : provider = "openai"
    · subst h1
      simp [UsageTracker.record, successfulRecord]
    · by_cases h2 : provider = "claude"
      · subst h2
        simp [UsageTracker.record, successfulRecord]
      · simp [UsageTracker.record, successfulRecord, beq_iff_eq, h1, h2]

/-- Folding a sequence of record invocations grows the call list by the
number of successful invocations. -/
lemma applyRecords_calls_length (rs : List RecordCall) (t : UsageTracker) :
    (applyRecords t rs).calls.length =
      t.calls.length + (rs.filter successfulRecord).length := by
  induction rs generalizing t with
  | nil => simp [applyRecords]
  | cons r rs ih =>
    have step : applyRecords t (r :: rs) =
        applyRecords (t.record r.responseUsage r.model r.stage r.provider) rs := rfl
    rw [step, ih, record_calls_length]
    by_cases h : successfulRecord r
    · have hr : successfulRecord ⟨r.responseUsage, r.model, r.stage, r.provider⟩
          = successfulRecord r := rfl
      rw [hr]
      simp [h, List.filter_cons]
      omega
    · have hr : successfulRecord ⟨r.responseUsage, r.model, r.stage, r.provider⟩
          = successfulRecord r := rfl
      rw [hr]
      simp [h, List.filter_cons]

/-- C7: summary reports the call count, the componentwise token sums, the
rounded sum of the per-call costs, and the ordered call list annotated with
per-call costs; it is a pure function of the tracker state (so repeated
invocations agree), and on the tracker built from any sequence of record
invocations the reported call count is exactly the number of successful
recordings. -/
theorem C7_summary_spec (t : UsageTracker) (startedAt : String)
    (rs : List RecordCall) :
    (summary t).started_at = t.started_at ∧
    (summary t).total_calls = t.calls.length ∧
    (summary t).total_input_tokens = (t.calls.map (fun c => c.input_tokens)).sum ∧
    (summary t).total_output_tokens = (t.calls.map (fun c => c.output_tokens)).sum ∧
    (summary t).total_tokens = (t.calls.map (fun c => c.total_tokens)).sum ∧
    (summary t).total_cost_usd = round6 ((t.calls.map (fun c => calculate_cost c)).sum) ∧
    (summary t).calls = t.calls.map (fun c => (c, calculate_cost c)) ∧
    summary t = summary t ∧
    (summary (applyRecords (UsageTracker.init startedAt) rs)).total_calls =
      (rs.filter successfulRecord).length := by
  refine ⟨rfl, rfl, rfl, rfl, rfl, rfl, rfl, rfl, ?_⟩
  show (applyRecords (UsageTracker.init startedAt) rs).calls.length = _
  rw [applyRecords_calls_length]
  simp [UsageTracker.init]

/-- C10: a record invocation that leaves the provider argument to its
declared default stores the call with provider "openai", normalized through
the OpenAI field names prompt_tokens, completion_tokens, total_tokens. -/
theorem C10_default_provider (t : UsageTracker) (u : Usage)
    (model stage : String) :
    t.recordDefaultProvider (some u) model stage =
      { t with calls := t.calls ++
        [{ stage := stage, model := model, provider := "openai"
         , input_tokens := u.prompt_tokens
         , output_tokens := u.completion_tokens
         , total_tokens := u.total_tokens }] } :=
  rfl
